import Mathlib

/-!
Verification of the RethinkDB sink adaptor (`pkg/adaptor/rethinkdb.go`):
the operation-application protocol (`applyOp`), the write-acknowledgment
interpretation (`handleResponse`), and session setup (`setupClient`).

The adaptor itself is embedded from the Go source.  The collaborating
packages (`pkg/message`, `pkg/pipe`) and the store client (`gorethink`)
are not part of the source fragment; the pieces of them that the adaptor
uses are modelled from the spec, each marked `Modelled from the spec:` in
its doc comment.
-/

set_option autoImplicit false

namespace Transporter

/-- Modelled from the spec: a scalar field value inside a document payload
(`pkg/message` is not in the source fragment).  Only the shapes the
adaptor inspects matter: the "id" field may be a string, a number, or
something not string-convertible. -/
inductive Value where
  | vStr (s : String)
  | vInt (n : Int)
  | vNull
deriving DecidableEq

/-- A document is a key/value mapping from field names to values. -/
abbrev Doc := List (String × Value)

/-- Modelled from the spec: the payload of a change message — either a
document (key/value mapping), a scalar, or an array.  Mirrors the spec's
invariant language: "never a scalar or array". -/
inductive Data where
  | doc (fields : Doc)
  | scalar (v : Value)
  | arr (vs : List Value)
deriving DecidableEq

/-- Modelled from the spec: the operation kind carried by a message.
Besides the three kinds the adaptor dispatches on, the message package
has further kinds (e.g. command/noop); `other` stands for any of those,
needed because the Go `switch` at rethinkdb.go:99 has no default branch. -/
inductive Op where
  | insert
  | update
  | delete
  | other
deriving DecidableEq

/-- Modelled from the spec: `message.Msg` — an operation kind plus a
payload (`msg.Op`, `msg.Data`). -/
structure Msg where
  op : Op
  data : Data
deriving DecidableEq

/-- Modelled from the spec: `msg.IsMap()` — whether the payload is
structurally a document (key/value mapping). -/
def Msg.isMap (m : Msg) : Bool :=
  match m.data with
  | .doc _ => true
  | _ => false

/-- Modelled from the spec: `msg.Map()` — the payload as a document
(meaningful only when `isMap`). -/
def Msg.map (m : Msg) : Doc :=
  match m.data with
  | .doc fields => fields
  | _ => []

/-- Association-list lookup of a field in a document. -/
def lookupField (d : Doc) (key : String) : Option Value :=
  match d with
  | [] => none
  | (k, v) :: rest => if k == key then some v else lookupField rest key

/-- Modelled from the spec: `msg.IDString(key)` — extract the identifier
field as a string.  Strings and numbers are string-convertible; an
absent field or any other value yields an error. -/
def Msg.idString (m : Msg) (key : String) : Except String String :=
  match m.data with
  | .doc fields =>
    match lookupField fields key with
    | some (.vStr s) => .ok s
    | some (.vInt n) => .ok (toString n)
    | some .vNull => .error "could not create id from vNull"
    | none => .error "could not create id from nil"
  | _ => .error "data is not a map"

/-- The fields of `gorethink.WriteResponse` that the adaptor reads:
`resp.Errors` and `resp.FirstError` (rethinkdb.go:151-156). -/
structure WriteResponse where
  errors : Nat
  firstError : String
deriving DecidableEq

/-- The zero value of `gorethink.WriteResponse` as declared at
rethinkdb.go:89 (`var resp gorethink.WriteResponse`). -/
def WriteResponse.zero : WriteResponse := ⟨0, ""⟩

/-- Modelled from the spec: the target collection of the opaque store
client, a mapping from primary-key values ("id") to stored documents. -/
abbrev Table := List (Value × Doc)

/-- Lookup of the stored document for a primary key. -/
def tableGet (t : Table) (k : Value) : Option Doc :=
  match t with
  | [] => none
  | (k', d) :: rest => if k' == k then some d else tableGet rest k

/-- Modelled from the spec: `Table(..).Get(id).Delete().RunWrite` —
delete-by-identifier; deleting a missing key reports no error. -/
def storeDelete (t : Table) (id : String) : Table × WriteResponse :=
  (t.filter (fun e => !(e.1 == Value.vStr id)), WriteResponse.zero)

/-- Modelled from the spec: `Table(..).Insert(doc).RunWrite` — a plain
insert.  A document whose primary key already exists is rejected with a
duplicate-primary-key error (the acknowledgment's representative
message); documents are keyed by their "id" field. -/
def storeInsert (t : Table) (d : Doc) : Table × WriteResponse :=
  match lookupField d "id" with
  | none => (t, ⟨1, "inserted object must have a primary key"⟩)
  | some k =>
    if (tableGet t k).isSome then
      (t, ⟨1, "Duplicate primary key id: the key already exists"⟩)
    else
      (t ++ [(k, d)], WriteResponse.zero)

/-- Modelled from the spec: `Table(..).Insert(doc, InsertOpts{Conflict:
"replace"}).RunWrite` — an upsert: a document whose primary key already
exists is fully replaced rather than rejected. -/
def storeUpsert (t : Table) (d : Doc) : Table × WriteResponse :=
  match lookupField d "id" with
  | none => (t, ⟨1, "inserted object must have a primary key"⟩)
  | some k =>
    if (tableGet t k).isSome then
      (t.map (fun e => if e.1 == k then (k, d) else e), WriteResponse.zero)
    else
      (t ++ [(k, d)], WriteResponse.zero)

/-- Modelled from the spec: a `RunWrite` call over the transport.  A
transport-level failure (network failure, timeout) yields the error and
the zero-valued acknowledgment, and the store is not mutated; otherwise
the mutation's result and acknowledgment are returned with a nil error. -/
def runWrite (transport : Option String) (t : Table) (call : Table → Table × WriteResponse) :
    Table × WriteResponse × Option String :=
  match transport with
  | some e => (t, WriteResponse.zero, some e)
  | none =>
    let (t', resp) := call t
    (t', resp, none)

/-- Modelled from the spec: the structured error record pushed onto the
error channel by `NewError(ERROR, r.path, text, payload)` — severity, the
adaptor's source path, and a human-readable message.  (The diagnostic
payload is dropped from the model; no claim mentions it.) -/
structure AdaptorError where
  lvl : String
  path : String
  msg : String
deriving DecidableEq

/-- `NewError(ERROR, r.path, text, _)` as used by this adaptor. -/
def mkError (path text : String) : AdaptorError := ⟨"ERROR", path, text⟩

/-- The adaptor fields that `applyOp`, `setupClient` and `handleResponse`
read (rethinkdb.go:16-32). -/
structure Rethinkdb where
  database : String
  table : String
  debug : Bool
  path : String
deriving DecidableEq

/-- Whether the pattern matches at the head of the list (helper for
`strings.Contains`). -/
def leadEq : List Char → List Char → Bool
  | [], _ => true
  | _ :: _, [] => false
  | a :: p, b :: l => a == b && leadEq p l

/-- Substring occurrence over character lists (helper for
`strings.Contains`). -/
def hasSub : List Char → List Char → Bool
  | [], p => p.isEmpty
  | a :: t, p => leadEq p (a :: t) || hasSub t p

/-- Go's `strings.Contains(s, pat)`. -/
def containsSubstr (s pat : String) : Bool :=
  hasSub s.data pat.data

/-- `handleResponse` (rethinkdb.go:150-160): a nonzero error count whose
representative message does not contain "Duplicate primary key" becomes
the composed error "problem inserting docs\n" ++ FirstError; everything
else (zero errors, or a duplicate-primary-key message) is nil. -/
def handleResponse (resp : WriteResponse) : Option String :=
  if resp.errors != 0 then
    if !(containsSubstr resp.firstError "Duplicate primary key") then
      some ("problem inserting docs\n" ++ resp.firstError)
    else
      none
  else
    none

/-- Everything observable about one `applyOp` call: the collection after
the call, the error records sent to `r.pipe.Err` (in order), the number
of store calls issued, and the `(msg, err)` pair returned to the
caller. -/
structure ApplyResult where
  table : Table
  errs : List AdaptorError
  calls : Nat
  ret : Msg × Option String
deriving DecidableEq

/-- The tail of `applyOp` after the `switch` (rethinkdb.go:112-122):
check the store-call error, then run `handleResponse` on the
acknowledgment, sending any resulting error to the pipe; always return
`(msg, nil)`. -/
def finishWith (r : Rethinkdb) (t : Table) (resp : WriteResponse) (e : Option String)
    (calls : Nat) (msg : Msg) : ApplyResult :=
  match e with
  | some errText =>
    { table := t
      errs := [mkError r.path ("rethinkdb error (" ++ errText ++ ")")]
      calls := calls
      ret := (msg, none) }
  | none =>
    match handleResponse resp with
    | some errText =>
      { table := t
        errs := [mkError r.path ("rethinkdb error (" ++ errText ++ ")")]
        calls := calls
        ret := (msg, none) }
    | none =>
      { table := t, errs := [], calls := calls, ret := (msg, none) }

/-- `applyOp` (rethinkdb.go:87-123).  The `transport` argument models
whether the single store call this event may issue fails at the
transport level.

Note on the `Delete` case: at rethinkdb.go:101 the Go code declares
`id, err := msg.IDString("id")` with `:=` inside the case clause, which
introduces a fresh `err` shadowing the one declared at line 90; the
plain assignment `resp, err = ...RunWrite(...)` at line 106 therefore
writes the transport error into the shadowed variable, and the outer
`err` tested at line 112 is still nil.  The embedding reproduces this:
the delete call's transport error is bound to `_shadowedErr` and `none`
is passed on as the outer error. -/
def applyOp (r : Rethinkdb) (transport : Option String) (t : Table) (msg : Msg) : ApplyResult :=
  if msg.isMap = false then
    { table := t
      errs := [mkError r.path "rethinkdb error (document must be a json document)"]
      calls := 0
      ret := (msg, none) }
  else
    let doc := msg.map
    match msg.op with
    | .delete =>
      match msg.idString "id" with
      | .error _ =>
        { table := t
          errs := [mkError r.path "rethinkdb error (cannot delete an object with a nil id)"]
          calls := 0
          ret := (msg, none) }
      | .ok id =>
        let res := runWrite transport t (fun tb => storeDelete tb id)
        -- `res.2.2` is the transport error, assigned only to the
        -- shadowed `err`; the outer error stays nil (`none`).
        finishWith r res.1 res.2.1 none 1 msg
    | .insert =>
      let res := runWrite transport t (fun tb => storeInsert tb doc)
      finishWith r res.1 res.2.1 res.2.2 1 msg
    | .update =>
      let res := runWrite transport t (fun tb => storeUpsert tb doc)
      finishWith r res.1 res.2.1 res.2.2 1 msg
    | .other =>
      finishWith r t WriteResponse.zero none 0 msg

/-- Modelled from the spec: the session handle returned by a successful
connect, bound via `client.Use(database)` to its active namespace. -/
structure Session where
  database : String
deriving DecidableEq

/-- `setupClient` (rethinkdb.go:125-147).  `connectErr` models the result
of `gorethink.Connect` (`some e` = the connect step failed with error
text `e`); `dropErr` and `createErr` model the results of the
`TableDrop` / `TableCreate` reset calls, whose return values the Go code
discards (lines 142-143). -/
def setupClient (r : Rethinkdb) (connectErr dropErr createErr : Option String) :
    Except String Session :=
  match connectErr with
  | some e => .error ("unable to connect: " ++ e)
  | none =>
    let _ := dropErr
    let _ := createErr
    .ok { database := r.database }

/-! ## Helper lemmas (shared across claims) -/

theorem finishWith_ret (r : Rethinkdb) (t : Table) (resp : WriteResponse) (e : Option String)
    (c : Nat) (m : Msg) : (finishWith r t resp e c m).ret = (m, none) := by
  unfold finishWith
  cases e
  · cases handleResponse resp <;> rfl
  · rfl

theorem handleResponse_zero : handleResponse WriteResponse.zero = none := rfl

theorem handleResponse_dup :
    handleResponse ⟨1, "Duplicate primary key id: the key already exists"⟩ = none := by
  decide

/-! ## Claims -/

/-- C1 (code-bug exhibit): a Delete event with a valid identifier whose
store call fails at the transport level.  Contrary to the claim, the
error does not short-circuit to a failure outcome: because of the `err`
shadowing at rethinkdb.go:101/106, no error record is emitted at all,
`handleResponse` IS applied to the zero-valued acknowledgment, and the
call reports clean success — even though the delete call was issued and
failed. -/
theorem delete_transport_error_swallowed :
    applyOp ⟨"db", "tbl", false, "test/path"⟩ (some "network timeout") []
        ⟨Op.delete, Data.doc [("id", Value.vStr "1")]⟩ =
      { table := []
        errs := []
        calls := 1
        ret := (⟨Op.delete, Data.doc [("id", Value.vStr "1")]⟩, none) } := by
  decide

/-- C2: `handleResponse` maps an acknowledgment to an outcome as
follows: zero errors yields success (nil); nonzero errors with a
representative message containing the duplicate-primary-key marker also
yields success; any other nonzero-error case yields a failure carrying
"problem inserting docs" followed by the representative error text. -/
theorem handleResponse_classification (resp : WriteResponse) :
    (resp.errors = 0 → handleResponse resp = none) ∧
    (resp.errors ≠ 0 → containsSubstr resp.firstError "Duplicate primary key" = true →
      handleResponse resp = none) ∧
    (resp.errors ≠ 0 → containsSubstr resp.firstError "Duplicate primary key" = false →
      handleResponse resp = some ("problem inserting docs\n" ++ resp.firstError)) := by
  refine ⟨fun h => ?_, fun h hdup => ?_, fun h hdup => ?_⟩
  · simp [handleResponse, h]
  · simp [handleResponse, h, hdup]
  · simp [handleResponse, h, hdup]

theorem handleResponse_classification_witness :
    handleResponse ⟨0, ""⟩ = none ∧
    handleResponse ⟨1, "Duplicate primary key id: x"⟩ = none ∧
    handleResponse ⟨2, "boom"⟩ = some ("problem inserting docs\n" ++ "boom") :=
  ⟨(handleResponse_classification ⟨0, ""⟩).1 rfl,
   (handleResponse_classification ⟨1, "Duplicate primary key id: x"⟩).2.1
     (by decide) (by decide),
   (handleResponse_classification ⟨2, "boom"⟩).2.2 (by decide) (by decide)⟩

/-- Helper: whatever the payload, operation kind, starting table, or
transport behaviour, `applyOp` returns the message with a nil error to
its own caller. -/
theorem applyOp_ret_handled (r : Rethinkdb) (transport : Option String) (t : Table)
    (msg : Msg) : (applyOp r transport t msg).ret = (msg, none) := by
  unfold applyOp
  split
  · rfl
  · split
    · split
      · rfl
      · exact finishWith_ret ..
    · exact finishWith_ret ..
    · exact finishWith_ret ..
    · exact finishWith_ret ..

/-- C3 (counterexample): a Delete event with a valid identifier whose
store call fails in transport is a store-level write failure, yet no
error record is pushed onto the error channel — `errs = []` although a
store call was issued and failed — because the shadowed `err` of
rethinkdb.go:101/106 never reaches the check at line 112.  This refutes
the claim's conjunct that all non-fatal errors are pushed onto the
external error channel. -/
theorem delete_transport_error_not_reported :
    (applyOp ⟨"db", "tbl", false, "test/path"⟩ (some "connection reset") []
        ⟨Op.delete, Data.doc [("id", Value.vStr "2")]⟩).errs = [] ∧
    (applyOp ⟨"db", "tbl", false, "test/path"⟩ (some "connection reset") []
        ⟨Op.delete, Data.doc [("id", Value.vStr "2")]⟩).calls = 1 := by
  decide

/-- C3 (amended): for every incoming event `applyOp` returns a handled
`(msg, nil)` result to its own caller and never terminates the stream on
a data error; validation failures, invalid identifiers, transport
failures of the Insert and Update store calls, and acknowledgment-level
write failures on Insert and Update are each pushed onto the external
error channel as data — but a transport-level failure of the Delete
store call is silently dropped (no record is emitted), due to the `err`
shadowing at rethinkdb.go:101/106. -/
theorem applyOp_handled_and_reports (r : Rethinkdb) (transport : Option String) (t : Table)
    (msg : Msg) :
    (applyOp r transport t msg).ret = (msg, none) ∧
    (msg.isMap = false →
      (applyOp r transport t msg).errs =
        [mkError r.path "rethinkdb error (document must be a json document)"]) ∧
    (msg.isMap = true → msg.op = Op.delete → (∃ e, msg.idString "id" = Except.error e) →
      (applyOp r transport t msg).errs =
        [mkError r.path "rethinkdb error (cannot delete an object with a nil id)"]) ∧
    (∀ e, transport = some e → msg.isMap = true →
      (msg.op = Op.insert ∨ msg.op = Op.update) →
      (applyOp r transport t msg).errs =
        [mkError r.path ("rethinkdb error (" ++ e ++ ")")]) ∧
    (∀ x, transport = none → msg.isMap = true → msg.op = Op.insert →
      handleResponse (storeInsert t msg.map).2 = some x →
      (applyOp r transport t msg).errs =
        [mkError r.path ("rethinkdb error (" ++ x ++ ")")]) ∧
    (∀ x, transport = none → msg.isMap = true → msg.op = Op.update →
      handleResponse (storeUpsert t msg.map).2 = some x →
      (applyOp r transport t msg).errs =
        [mkError r.path ("rethinkdb error (" ++ x ++ ")")]) ∧
    (∀ e s, transport = some e → msg.op = Op.delete → msg.idString "id" = Except.ok s →
      (applyOp r transport t msg).errs = []) := by
  refine ⟨applyOp_ret_handled .., ?_, ?_, ?_, ?_, ?_, ?_⟩
  · intro hmap
    simp [applyOp, hmap]
  · intro hmap hop hid
    obtain ⟨e, he⟩ := hid
    simp [applyOp, hmap, hop, he]
  · intro e he hmap hop
    rcases hop with hop | hop <;>
      simp [applyOp, he, hmap, hop, runWrite, finishWith]
  · intro x htr hmap hop hx
    simp [applyOp, htr, hmap, hop, runWrite, finishWith, hx]
  · intro x htr hmap hop hx
    simp [applyOp, htr, hmap, hop, runWrite, finishWith, hx]
  · intro e s he hop hid
    have hmap : msg.isMap = true := by
      rcases msg with ⟨op, data⟩
      cases data <;> simp_all [Msg.idString, Msg.isMap]
    simp [applyOp, he, hop, hid, hmap, runWrite, finishWith, handleResponse,
      WriteResponse.zero]

theorem applyOp_handled_and_reports_witness :
    (applyOp ⟨"db", "tbl", false, "test/path"⟩ none []
        ⟨Op.other, Data.doc []⟩).ret = (⟨Op.other, Data.doc []⟩, none) ∧
    (applyOp ⟨"db", "tbl", false, "test/path"⟩ none []
        ⟨Op.insert, Data.scalar (Value.vInt 5)⟩).errs =
      [mkError "test/path" "rethinkdb error (document must be a json document)"] ∧
    (applyOp ⟨"db", "tbl", false, "test/path"⟩ none []
        ⟨Op.delete, Data.doc [("y", Value.vInt 3)]⟩).errs =
      [mkError "test/path" "rethinkdb error (cannot delete an object with a nil id)"] ∧
    (applyOp ⟨"db", "tbl", false, "test/path"⟩ (some "timeout") []
        ⟨Op.insert, Data.doc [("id", Value.vStr "3")]⟩).errs =
      [mkError "test/path" ("rethinkdb error (" ++ "timeout" ++ ")")] ∧
    (applyOp ⟨"db", "tbl", false, "test/path"⟩ none []
        ⟨Op.insert, Data.doc [("y", Value.vInt 3)]⟩).errs =
      [mkError "test/path"
        ("rethinkdb error (" ++
          "problem inserting docs\ninserted object must have a primary key" ++ ")")] ∧
    (applyOp ⟨"db", "tbl", false, "test/path"⟩ none []
        ⟨Op.update, Data.doc [("y", Value.vInt 3)]⟩).errs =
      [mkError "test/path"
        ("rethinkdb error (" ++
          "problem inserting docs\ninserted object must have a primary key" ++ ")")] ∧
    (applyOp ⟨"db", "tbl", false, "test/path"⟩ (some "reset by peer") []
        ⟨Op.delete, Data.doc [("id", Value.vStr "3")]⟩).errs = [] :=
  ⟨(applyOp_handled_and_reports ⟨"db", "tbl", false, "test/path"⟩ none []
      ⟨Op.other, Data.doc []⟩).1,
   (applyOp_handled_and_reports ⟨"db", "tbl", false, "test/path"⟩ none []
      ⟨Op.insert, Data.scalar (Value.vInt 5)⟩).2.1 rfl,
   (applyOp_handled_and_reports ⟨"db", "tbl", false, "test/path"⟩ none []
      ⟨Op.delete, Data.doc [("y", Value.vInt 3)]⟩).2.2.1 rfl rfl
      ⟨"could not create id from nil", rfl⟩,
   (applyOp_handled_and_reports ⟨"db", "tbl", false, "test/path"⟩ (some "timeout") []
      ⟨Op.insert, Data.doc [("id", Value.vStr "3")]⟩).2.2.2.1 "timeout" rfl rfl (Or.inl rfl),
   (applyOp_handled_and_reports ⟨"db", "tbl", false, "test/path"⟩ none []
      ⟨Op.insert, Data.doc [("y", Value.vInt 3)]⟩).2.2.2.2.1
      "problem inserting docs\ninserted object must have a primary key" rfl rfl rfl (by decide),
   (applyOp_handled_and_reports ⟨"db", "tbl", false, "test/path"⟩ none []
      ⟨Op.update, Data.doc [("y", Value.vInt 3)]⟩).2.2.2.2.2.1
      "problem inserting docs\ninserted object must have a primary key" rfl rfl rfl (by decide),
   (applyOp_handled_and_reports ⟨"db", "tbl", false, "test/path"⟩ (some "reset by peer") []
      ⟨Op.delete, Data.doc [("id", Value.vStr "3")]⟩).2.2.2.2.2.2
      "reset by peer" "3" rfl rfl rfl⟩

/-- C4: an Insert or Update event whose payload is not a document yields
exactly the malformed-payload error record, issues no store call, and
leaves the store unmutated. -/
theorem applyOp_nonmap_insert_update (r : Rethinkdb) (transport : Option String) (t : Table)
    (msg : Msg) (_hop : msg.op = Op.insert ∨ msg.op = Op.update) (hmap : msg.isMap = false) :
    applyOp r transport t msg =
      { table := t
        errs := [mkError r.path "rethinkdb error (document must be a json document)"]
        calls := 0
        ret := (msg, none) } := by
  simp [applyOp, hmap]

theorem applyOp_nonmap_insert_update_witness :
    applyOp ⟨"db", "tbl", false, "test/path"⟩ none [] ⟨Op.insert, Data.scalar Value.vNull⟩ =
      { table := []
        errs := [mkError "test/path" "rethinkdb error (document must be a json document)"]
        calls := 0
        ret := (⟨Op.insert, Data.scalar Value.vNull⟩, none) } :=
  applyOp_nonmap_insert_update ⟨"db", "tbl", false, "test/path"⟩ none []
    ⟨Op.insert, Data.scalar Value.vNull⟩ (Or.inl rfl) rfl

/-- C5 (counterexample): a Delete event whose payload is a scalar lacks a
string-extractable "id", yet `applyOp` emits the malformed-payload error
record, not the invalid-identifier one — the document-shape check at
rethinkdb.go:93 fires before the identifier extraction is reached. -/
theorem delete_nonmap_not_invalid_id :
    (applyOp ⟨"db", "tbl", false, "test/path"⟩ none []
        ⟨Op.delete, Data.scalar Value.vNull⟩).errs =
      [mkError "test/path" "rethinkdb error (document must be a json document)"] ∧
    (applyOp ⟨"db", "tbl", false, "test/path"⟩ none []
        ⟨Op.delete, Data.scalar Value.vNull⟩).errs ≠
      [mkError "test/path" "rethinkdb error (cannot delete an object with a nil id)"] := by
  decide

/-- C5 (amended): for every Delete event whose payload IS a document but
lacks an "id" extractable as a string, `applyOp` produces the
invalid-identifier failure and stops without making any store call. -/
theorem applyOp_delete_invalid_id (r : Rethinkdb) (transport : Option String) (t : Table)
    (msg : Msg) (hop : msg.op = Op.delete) (hmap : msg.isMap = true)
    (hid : ∃ e, msg.idString "id" = Except.error e) :
    applyOp r transport t msg =
      { table := t
        errs := [mkError r.path "rethinkdb error (cannot delete an object with a nil id)"]
        calls := 0
        ret := (msg, none) } := by
  obtain ⟨e, he⟩ := hid
  simp [applyOp, hmap, hop, he]

theorem applyOp_delete_invalid_id_witness :
    applyOp ⟨"db", "tbl", false, "test/path"⟩ none []
        ⟨Op.delete, Data.doc [("x", Value.vInt 1)]⟩ =
      { table := []
        errs := [mkError "test/path" "rethinkdb error (cannot delete an object with a nil id)"]
        calls := 0
        ret := (⟨Op.delete, Data.doc [("x", Value.vInt 1)]⟩, none) } :=
  applyOp_delete_invalid_id ⟨"db", "tbl", false, "test/path"⟩ none []
    ⟨Op.delete, Data.doc [("x", Value.vInt 1)]⟩ rfl rfl ⟨"could not create id from nil", rfl⟩

/-- C6: applying the same Update event twice in sequence against an
empty collection stores the same document both times (the upsert's
replace-on-conflict policy replaces the existing document with an
identical one), and both applies — the second in particular — succeed
with no error record. -/
theorem update_twice_idempotent (r : Rethinkdb) (fields : Doc) (k : Value)
    (hid : lookupField fields "id" = some k) :
    (applyOp r none [] ⟨Op.update, Data.doc fields⟩).table = [(k, fields)] ∧
    (applyOp r none [] ⟨Op.update, Data.doc fields⟩).errs = [] ∧
    (applyOp r none (applyOp r none [] ⟨Op.update, Data.doc fields⟩).table
        ⟨Op.update, Data.doc fields⟩).table = [(k, fields)] ∧
    (applyOp r none (applyOp r none [] ⟨Op.update, Data.doc fields⟩).table
        ⟨Op.update, Data.doc fields⟩).errs = [] := by
  have h1 : applyOp r none [] ⟨Op.update, Data.doc fields⟩ =
      { table := [(k, fields)], errs := [], calls := 1,
        ret := (⟨Op.update, Data.doc fields⟩, none) } := by
    simp [applyOp, Msg.isMap, Msg.map, runWrite, storeUpsert, hid, tableGet,
      finishWith, handleResponse, WriteResponse.zero]
  rw [h1]
  refine ⟨rfl, rfl, ?_, ?_⟩ <;>
    simp [applyOp, Msg.isMap, Msg.map, runWrite, storeUpsert, hid, tableGet,
      finishWith, handleResponse, WriteResponse.zero]

theorem update_twice_idempotent_witness :
    (applyOp ⟨"db", "tbl", false, "test/path"⟩ none []
          ⟨Op.update, Data.doc [("id", Value.vStr "1"), ("x", Value.vInt 1)]⟩).table =
        [(Value.vStr "1", [("id", Value.vStr "1"), ("x", Value.vInt 1)])] ∧
    (applyOp ⟨"db", "tbl", false, "test/path"⟩ none []
          ⟨Op.update, Data.doc [("id", Value.vStr "1"), ("x", Value.vInt 1)]⟩).errs = [] ∧
    (applyOp ⟨"db", "tbl", false, "test/path"⟩ none
          (applyOp ⟨"db", "tbl", false, "test/path"⟩ none []
            ⟨Op.update, Data.doc [("id", Value.vStr "1"), ("x", Value.vInt 1)]⟩).table
          ⟨Op.update, Data.doc [("id", Value.vStr "1"), ("x", Value.vInt 1)]⟩).table =
        [(Value.vStr "1", [("id", Value.vStr "1"), ("x", Value.vInt 1)])] ∧
    (applyOp ⟨"db", "tbl", false, "test/path"⟩ none
          (applyOp ⟨"db", "tbl", false, "test/path"⟩ none []
            ⟨Op.update, Data.doc [("id", Value.vStr "1"), ("x", Value.vInt 1)]⟩).table
          ⟨Op.update, Data.doc [("id", Value.vStr "1"), ("x", Value.vInt 1)]⟩).errs = [] :=
  update_twice_idempotent ⟨"db", "tbl", false, "test/path"⟩
    [("id", Value.vStr "1"), ("x", Value.vInt 1)] (Value.vStr "1") rfl

/-- C7: an Insert of a document whose identifier already exists in the
collection succeeds (no error record — the duplicate-primary-key error
in the acknowledgment is suppressed by `handleResponse`) while the
collection, and in particular the pre-existing document under that
identifier, is left unchanged: the Insert path is a plain insert with no
replace-on-conflict option. -/
theorem insert_duplicate_suppressed (r : Rethinkdb) (t : Table) (d d0 : Doc) (k : Value)
    (hid : lookupField d "id" = some k) (hexists : tableGet t k = some d0) :
    (applyOp r none t ⟨Op.insert, Data.doc d⟩).errs = [] ∧
    (applyOp r none t ⟨Op.insert, Data.doc d⟩).table = t ∧
    tableGet (applyOp r none t ⟨Op.insert, Data.doc d⟩).table k = some d0 := by
  simp [applyOp, Msg.isMap, Msg.map, runWrite, storeInsert, hid, hexists,
    finishWith, handleResponse_dup]

theorem insert_duplicate_suppressed_witness :
    (applyOp ⟨"db", "tbl", false, "test/path"⟩ none
          [(Value.vStr "1", [("id", Value.vStr "1"), ("x", Value.vInt 1)])]
          ⟨Op.insert, Data.doc [("id", Value.vStr "1"), ("x", Value.vInt 2)]⟩).errs = [] ∧
    (applyOp ⟨"db", "tbl", false, "test/path"⟩ none
          [(Value.vStr "1", [("id", Value.vStr "1"), ("x", Value.vInt 1)])]
          ⟨Op.insert, Data.doc [("id", Value.vStr "1"), ("x", Value.vInt 2)]⟩).table =
        [(Value.vStr "1", [("id", Value.vStr "1"), ("x", Value.vInt 1)])] ∧
    tableGet (applyOp ⟨"db", "tbl", false, "test/path"⟩ none
          [(Value.vStr "1", [("id", Value.vStr "1"), ("x", Value.vInt 1)])]
          ⟨Op.insert, Data.doc [("id", Value.vStr "1"), ("x", Value.vInt 2)]⟩).table
        (Value.vStr "1") = some [("id", Value.vStr "1"), ("x", Value.vInt 1)] :=
  insert_duplicate_suppressed ⟨"db", "tbl", false, "test/path"⟩
    [(Value.vStr "1", [("id", Value.vStr "1"), ("x", Value.vInt 1)])]
    [("id", Value.vStr "1"), ("x", Value.vInt 2)]
    [("id", Value.vStr "1"), ("x", Value.vInt 1)] (Value.vStr "1") rfl rfl

/-- C8: `setupClient` fails — with the connection error, returning no
session — exactly when the connect step fails; when connect succeeds the
outcomes of the drop/create reset calls are discarded, and the session
comes back usable with the adaptor's database bound as its active
namespace, whatever those outcomes were. -/
theorem setupClient_classification (r : Rethinkdb) (dropErr createErr : Option String) :
    (∀ e, setupClient r (some e) dropErr createErr =
      Except.error ("unable to connect: " ++ e)) ∧
    setupClient r none dropErr createErr = Except.ok { database := r.database } :=
  ⟨fun _ => rfl, rfl⟩

/-- C9: a Delete event whose payload is not a document is rejected with
the malformed-payload error record before op-kind dispatch — the shape
check at rethinkdb.go:93 covers all three operation kinds — and no store
call is issued, leaving the store unmutated. -/
theorem applyOp_delete_nonmap_rejected (r : Rethinkdb) (transport : Option String) (t : Table)
    (msg : Msg) (_hop : msg.op = Op.delete) (hmap : msg.isMap = false) :
    applyOp r transport t msg =
      { table := t
        errs := [mkError r.path "rethinkdb error (document must be a json document)"]
        calls := 0
        ret := (msg, none) } := by
  simp [applyOp, hmap]

theorem applyOp_delete_nonmap_rejected_witness :
    applyOp ⟨"db", "tbl", false, "test/path"⟩ none [] ⟨Op.delete, Data.arr []⟩ =
      { table := []
        errs := [mkError "test/path" "rethinkdb error (document must be a json document)"]
        calls := 0
        ret := (⟨Op.delete, Data.arr []⟩, none) } :=
  applyOp_delete_nonmap_rejected ⟨"db", "tbl", false, "test/path"⟩ none []
    ⟨Op.delete, Data.arr []⟩ rfl rfl

/-- C10: an event whose operation kind is none of Insert, Update or
Delete, with a document payload, falls through the defaultless `switch`:
no store call is issued, the zero-valued acknowledgment (error count
zero) passes `handleResponse` cleanly, no error record is emitted, and
the caller gets the handled `(msg, nil)` result. -/
theorem applyOp_other_op_noop (r : Rethinkdb) (transport : Option String) (t : Table)
    (msg : Msg) (hop : msg.op = Op.other) (hmap : msg.isMap = true) :
    applyOp r transport t msg =
      { table := t, errs := [], calls := 0, ret := (msg, none) } := by
  simp [applyOp, hmap, hop, finishWith, handleResponse, WriteResponse.zero]

theorem applyOp_other_op_noop_witness :
    applyOp ⟨"db", "tbl", false, "test/path"⟩ none [] ⟨Op.other, Data.doc []⟩ =
      { table := [], errs := [], calls := 0,
        ret := (⟨Op.other, Data.doc []⟩, none) } :=
  applyOp_other_op_noop ⟨"db", "tbl", false, "test/path"⟩ none [] ⟨Op.other, Data.doc []⟩
    rfl rfl

end Transporter
